import Mathlib

/-!
Verification of the coupon-management discount engine and cart rewriter.

Shallow embedding of `app/services/discount_calculator.py`,
`app/services/coupon_service.py` and the apply-coupon route of
`app/routers/coupons.py`.  Python `Decimal` amounts (constructed from
decimal strings with 28 significant digits of working precision) are
modelled as exact rationals `ℚ`; `round2` is half-up (away from zero)
rounding to two decimal places, matching `ROUND_HALF_UP` quantization
to `0.01`.  Timestamps are modelled as integers; `None`-able columns as
`Option`.  Python dicts keyed by product id are modelled as association
lists with dict-style insertion (replace in place if the key is present,
else append), and dict lookup takes the most recent binding.
-/

namespace CouponApp

/-- Half-up (away-from-zero) rounding of a rational to an integer,
matching `Decimal.quantize(..., rounding=ROUND_HALF_UP)` after scaling. -/
def roundHalfUp (q : ℚ) : ℤ :=
  if 0 ≤ q then ⌊q + 1/2⌋ else -⌊-q + 1/2⌋

/-- `round2` from `discount_calculator.py`: round to 2 decimal places, half-up. -/
def round2 (q : ℚ) : ℚ :=
  (roundHalfUp (q * 100) : ℚ) / 100

/-- A cart line item (`CartItem` schema): positive product id, positive
quantity, per-unit price.  Prices arrive as decimal floats and are carried
exactly. -/
structure CartItem where
  product_id : ℕ
  quantity : ℕ
  price : ℚ
deriving DecidableEq, Repr

/-- A cart (`Cart` schema): ordered list of line items. -/
structure Cart where
  items : List CartItem
deriving DecidableEq, Repr

/-- Discount type payload field: `"percentage"` or `"fixed"`. -/
inductive DiscountType where
  | percentage
  | fixed
deriving DecidableEq, Repr

/-- `CartWiseDetails` payload. -/
structure CartWiseDetails where
  threshold : ℚ
  discount : ℚ
  discount_type : DiscountType
deriving DecidableEq, Repr

/-- `ProductWiseDetails` payload. -/
structure ProductWiseDetails where
  product_id : ℕ
  discount : ℚ
  discount_type : DiscountType
deriving DecidableEq, Repr

/-- An entry of `buy_products` / `get_products`: product id and quantity. -/
structure BxGyProduct where
  product_id : ℕ
  quantity : ℕ
deriving DecidableEq, Repr

/-- `BxGyDetails` payload. -/
structure BxGyDetails where
  buy_products : List BxGyProduct
  get_products : List BxGyProduct
  repetition_limit : ℕ
deriving DecidableEq, Repr

/-- The variant-tagged coupon payload: the stored `type` string together
with its `details` dict.  `other` covers any type string outside the three
supported variants (reachable by the engine, rejected by validation). -/
inductive CouponKind where
  | cartWise (d : CartWiseDetails)
  | productWise (d : ProductWiseDetails)
  | bxgy (d : BxGyDetails)
  | other (type : String)
deriving DecidableEq, Repr

/-- Whether the coupon type is one of the three supported variants
(`CouponTypes` in `app/models/coupon.py`; enforced on every persisted
coupon by `_validate_coupon_details`). -/
def CouponKind.supported : CouponKind → Bool
  | .other _ => false
  | _ => true

/-- A persisted coupon record (`Coupon` model): payload plus the
redeemability bookkeeping columns. -/
structure Coupon where
  kind : CouponKind
  is_active : Bool
  expires_at : Option ℤ
  max_redemptions : Option ℕ
  times_redeemed : ℕ
deriving DecidableEq, Repr

/-- Python dict lookup on `{item.product_id: item for item in cart.items}`:
with duplicate ids the last occurrence wins. -/
def cartLookup (cart : Cart) (pid : ℕ) : Option CartItem :=
  cart.items.reverse.find? (fun it => it.product_id == pid)

/-- `DiscountCalculator.calculate_cart_total`. -/
def calculate_cart_total (cart : Cart) : ℚ :=
  (cart.items.map (fun it => (it.quantity : ℚ) * it.price)).sum

/-- `DiscountCalculator.calculate_cart_wise_discount`. -/
def calculate_cart_wise_discount (cart : Cart) (d : CartWiseDetails) : ℚ :=
  let cart_total := calculate_cart_total cart
  if cart_total < d.threshold then 0
  else match d.discount_type with
    | .percentage => round2 (cart_total * d.discount / 100)
    | .fixed => min (round2 d.discount) cart_total

/-- `DiscountCalculator.calculate_product_wise_discount`.  `next(...)`
takes the first item whose product id matches. -/
def calculate_product_wise_discount (cart : Cart) (d : ProductWiseDetails) : ℚ :=
  match cart.items.find? (fun it => it.product_id == d.product_id) with
  | none => 0
  | some target =>
      let product_total := (target.quantity : ℚ) * target.price
      match d.discount_type with
      | .percentage => round2 (product_total * d.discount / 100)
      | .fixed => min (round2 d.discount) product_total

/-- `required_buy_quantity`: sum of all `buy_products` required quantities. -/
def requiredBuyQuantity (d : BxGyDetails) : ℕ :=
  (d.buy_products.map (fun bp => bp.quantity)).sum

/-- `total_buy_quantity`: cart quantities of the `buy_products` present in
the cart (absent products contribute 0). -/
def buyQuantityPresent (cart : Cart) (buys : List BxGyProduct) : ℕ :=
  (buys.map (fun bp =>
    match cartLookup cart bp.product_id with
    | some it => it.quantity
    | none => 0)).sum

/-- Python dict assignment `m[k] = v`: replace the value in place when the
key is present, else append a new binding. -/
def dictInsert (m : List (ℕ × ℕ)) (k v : ℕ) : List (ℕ × ℕ) :=
  if m.any (fun e => e.1 == k) then
    m.map (fun e => if e.1 == k then (k, v) else e)
  else m ++ [(k, v)]

/-- Python dict lookup `m[k]` (last binding wins; `none` when absent). -/
def dictLookup (m : List (ℕ × ℕ)) (k : ℕ) : Option ℕ :=
  (m.reverse.find? (fun e => e.1 == k)).map (fun e => e.2)

/-- One iteration of the `get_products` loop in
`calculate_bxgy_discount`: grant `quantity × times_applicable` free units
and add their cart-price value (0 when the product is absent) when the
granted quantity is positive. -/
def bxgyStep (cart : Cart) (times : ℕ) (acc : ℚ × List (ℕ × ℕ))
    (g : BxGyProduct) : ℚ × List (ℕ × ℕ) :=
  let total_free := g.quantity * times
  let price : ℚ :=
    match cartLookup cart g.product_id with
    | some it => it.price
    | none => 0
  if 0 < total_free then
    (acc.1 + (total_free : ℚ) * price, dictInsert acc.2 g.product_id total_free)
  else acc

/-- `DiscountCalculator.calculate_bxgy_discount`: returns the rounded
total discount and the free-item map. -/
def calculate_bxgy_discount (cart : Cart) (d : BxGyDetails) :
    ℚ × List (ℕ × ℕ) :=
  let required := requiredBuyQuantity d
  if required = 0 then (0, [])
  else
    let times := min (buyQuantityPresent cart d.buy_products / required)
      d.repetition_limit
    let r := d.get_products.foldl (bxgyStep cart times) (0, [])
    (round2 r.1, r.2)

/-- `DiscountCalculator.is_coupon_applicable`. -/
def is_coupon_applicable (cart : Cart) (k : CouponKind) : Bool :=
  match k with
  | .cartWise d => decide (d.threshold ≤ calculate_cart_total cart)
  | .productWise d => cart.items.any (fun it => it.product_id == d.product_id)
  | .bxgy d =>
      decide (0 < requiredBuyQuantity d) &&
      decide (requiredBuyQuantity d ≤ buyQuantityPresent cart d.buy_products)
  | .other _ => false

/-- `DiscountCalculator.calculate_discount`. -/
def calculate_discount (cart : Cart) (k : CouponKind) : ℚ :=
  if ¬ is_coupon_applicable cart k then 0
  else match k with
    | .cartWise d => calculate_cart_wise_discount cart d
    | .productWise d => calculate_product_wise_discount cart d
    | .bxgy d => (calculate_bxgy_discount cart d).1
    | .other _ => 0

/-- `CartItemWithDiscount` schema: an output line item carrying its
allocated discount. -/
structure CartItemWithDiscount where
  product_id : ℕ
  quantity : ℕ
  price : ℚ
  total_discount : ℚ
deriving DecidableEq, Repr

/-- `UpdatedCart` schema. -/
structure UpdatedCart where
  items : List CartItemWithDiscount
  total_price : ℚ
  total_discount : ℚ
  final_price : ℚ
deriving DecidableEq, Repr

/-- `CouponService.ensure_redeemable`: raises (as `Except.error` with the
HTTP detail string) when the coupon is inactive, expired, or at its
redemption limit, in that order. -/
def ensure_redeemable (c : Coupon) (now : ℤ) : Except String Unit :=
  if !c.is_active then .error "Coupon is inactive"
  else if (match c.expires_at with
           | some e => decide (e ≤ now)
           | none => false) then .error "Coupon is expired"
  else if (match c.max_redemptions with
           | some m => decide (m ≤ c.times_redeemed)
           | none => false) then .error "Coupon redemption limit reached"
  else .ok ()

/-- The redeemability gate as a predicate: active, unexpired, under the
redemption limit. -/
def redeemable (c : Coupon) (now : ℤ) : Bool :=
  c.is_active &&
  (match c.expires_at with
   | some e => decide (now < e)
   | none => true) &&
  (match c.max_redemptions with
   | some m => decide (c.times_redeemed < m)
   | none => true)

/-- `CouponService.increment_redemption`: bump `times_redeemed` by one. -/
def increment_redemption (c : Coupon) : Coupon :=
  { c with times_redeemed := c.times_redeemed + 1 }

/-- The cart-wise allocation loop of `apply_coupon`
(`for idx, item in enumerate(cart.items, start=1)`): every item except
the last receives `round2(total_discount * proportion)` and feeds the
running sum; the last receives `round2(total_discount - running)`. -/
def allocateCartWise (td subtotal : ℚ) :
    List CartItem → ℚ → List CartItemWithDiscount
  | [], _ => []
  | [item], running =>
      [⟨item.product_id, item.quantity, item.price, round2 (td - running)⟩]
  | item :: rest, running =>
      let proportion : ℚ :=
        if 0 < subtotal then ((item.quantity : ℚ) * item.price) / subtotal
        else 0
      let item_disc := round2 (td * proportion)
      ⟨item.product_id, item.quantity, item.price, item_disc⟩ ::
        allocateCartWise td subtotal rest (running + item_disc)

/-- The product-wise branch of `apply_coupon`: the matching line items get
the aggregate discount capped at their subtotal, all others get 0; every
per-item value passes through `round2`. -/
def productWiseRewrite (cart : Cart) (td : ℚ) (target : Option ℕ) :
    List CartItemWithDiscount :=
  cart.items.map (fun item =>
    let item_disc : ℚ :=
      if target = some item.product_id then
        let product_total := (item.quantity : ℚ) * item.price
        if product_total < td then product_total else td
      else 0
    ⟨item.product_id, item.quantity, item.price, round2 item_disc⟩)

/-- `free_additions` in the bxgy branch of `apply_coupon`: the free-item
bindings whose product id is absent from the original cart, in map order. -/
def freeAdditions (cart : Cart) (fi : List (ℕ × ℕ)) : List (ℕ × ℕ) :=
  fi.filter (fun e => !(cart.items.any (fun it => it.product_id == e.1)))

/-- The bxgy branch of `apply_coupon`: free quantities granted on products
present in the cart are merged into their lines (with the per-line discount
`free_quantity × price`, rounded), and products granted but absent are
appended as new lines at price 0 with discount 0. -/
def bxgyRewrite (cart : Cart) (fi : List (ℕ × ℕ)) :
    List CartItemWithDiscount :=
  (cart.items.map (fun item =>
    match dictLookup fi item.product_id with
    | some free_qty =>
        ⟨item.product_id, item.quantity + free_qty, item.price,
          round2 ((free_qty : ℚ) * item.price)⟩
    | none => ⟨item.product_id, item.quantity, item.price, round2 0⟩))
  ++ (freeAdditions cart fi).map (fun e => ⟨e.1, e.2, 0, 0⟩)

/-- The aggregate discount the apply route computes for each variant
(`total_discount` before the final rounding). -/
def aggregateDiscount (cart : Cart) : CouponKind → ℚ
  | .cartWise d => calculate_cart_wise_discount cart d
  | .productWise d => calculate_product_wise_discount cart d
  | .bxgy d => (calculate_bxgy_discount cart d).1
  | .other _ => 0

/-- The final totals of `apply_coupon`:
`total_price = round2(cart total)`, `total_discount = round2(aggregate)`,
`final_price = round2(total_price - total_discount)`. -/
def mkUpdatedCart (items : List CartItemWithDiscount)
    (total_price td : ℚ) : UpdatedCart :=
  let final_total_discount := round2 td
  let total_price_r := round2 total_price
  ⟨items, total_price_r, final_total_discount,
    round2 (total_price_r - final_total_discount)⟩

/-- The apply-coupon route (`POST /apply-coupon/{id}`) for an existing
coupon, as a function of the coupon record, the cart and the current time:
runs `ensure_redeemable`, dispatches on the coupon type to compute the
aggregate discount and the rewritten items, rejects unsupported types, and
on success returns the updated cart together with the coupon record after
`increment_redemption`. -/
def apply_coupon (c : Coupon) (cart : Cart) (now : ℤ) :
    Except String (UpdatedCart × Coupon) :=
  match ensure_redeemable c now with
  | .error e => .error e
  | .ok _ =>
    let total_price := calculate_cart_total cart
    match c.kind with
    | .cartWise d =>
        let td := calculate_cart_wise_discount cart d
        let items := allocateCartWise td total_price cart.items 0
        .ok (mkUpdatedCart items total_price td, increment_redemption c)
    | .productWise d =>
        let td := calculate_product_wise_discount cart d
        let items := productWiseRewrite cart td (some d.product_id)
        .ok (mkUpdatedCart items total_price td, increment_redemption c)
    | .bxgy d =>
        let r := calculate_bxgy_discount cart d
        let items := bxgyRewrite cart r.2
        .ok (mkUpdatedCart items total_price r.1, increment_redemption c)
    | .other _ => .error "Unsupported coupon type"

/-- State-passing form of `is_coupon_applicable`, threading the cart
through the call: the source reads the cart (building lookup dicts from
it) and never assigns to it, so the call returns it unchanged. -/
def is_coupon_applicable_run (cart : Cart) (k : CouponKind) : Bool × Cart :=
  (is_coupon_applicable cart k, cart)

/-- State-passing form of `calculate_discount`, threading the cart
through the call; the source performs no mutation of the cart. -/
def calculate_discount_run (cart : Cart) (k : CouponKind) : ℚ × Cart :=
  (calculate_discount cart k, cart)

/-- Sample cart of the spec's end-to-end example 1. -/
def exCart : Cart := ⟨[⟨1, 2, 50⟩, ⟨2, 1, 100⟩]⟩

/-- Sample cart-wise 10% coupon over threshold 100, freshly created. -/
def exCoupon : Coupon := ⟨.cartWise ⟨100, 10, .percentage⟩, true, none, none, 0⟩

/-- The updated cart the apply route produces for `exCoupon` on `exCart`. -/
def exUpdated : UpdatedCart :=
  ⟨[⟨1, 2, 50, 10⟩, ⟨2, 1, 100, 10⟩], 200, 20, 180⟩

/-- A rational that is a whole number of cents. -/
def IsCent (q : ℚ) : Prop := ∃ n : ℤ, q = (n : ℚ) / 100

theorem roundHalfUp_intCast (n : ℤ) : roundHalfUp (n : ℚ) = n := by
  have h0 : ⌊(1/2 : ℚ)⌋ = 0 := by
    rw [Int.floor_eq_iff] ; norm_num
  unfold roundHalfUp
  split
  · rw [Int.floor_int_add, h0, add_zero]
  · rw [show -(n : ℚ) + 1/2 = ((-n : ℤ) : ℚ) + (1/2 : ℚ) by push_cast; ring,
      Int.floor_int_add, h0, add_zero, Int.neg_neg]

theorem round2_eq_self_of_cent {q : ℚ} (h : IsCent q) : round2 q = q := by
  obtain ⟨n, rfl⟩ := h
  unfold round2
  rw [show (n : ℚ) / 100 * 100 = (n : ℚ) by field_simp, roundHalfUp_intCast]

theorem isCent_round2 (q : ℚ) : IsCent (round2 q) :=
  ⟨roundHalfUp (q * 100), rfl⟩

theorem isCent_zero : IsCent 0 := ⟨0, by norm_num⟩

theorem IsCent.add {a b : ℚ} (ha : IsCent a) (hb : IsCent b) :
    IsCent (a + b) := by
  obtain ⟨n, rfl⟩ := ha
  obtain ⟨m, rfl⟩ := hb
  exact ⟨n + m, by push_cast; ring⟩

theorem isCent_sum (l : List ℚ) (h : ∀ x ∈ l, IsCent x) : IsCent l.sum := by
  induction l with
  | nil => simpa using isCent_zero
  | cons x xs ih =>
      rw [List.sum_cons]
      exact (h x (by simp)).add (ih (fun y hy => h y (by simp [hy])))

/-- C2: for every cart and cart-wise details, the discount is 0 below the
threshold; at or above it, percentage type yields
`round2(cart_total * discount / 100)` and fixed type yields
`min(round2(discount), cart_total)`, which never exceeds the cart total. -/
theorem cart_wise_discount_spec (cart : Cart) (d : CartWiseDetails) :
    (calculate_cart_total cart < d.threshold →
      calculate_cart_wise_discount cart d = 0)
    ∧ (d.threshold ≤ calculate_cart_total cart →
        (d.discount_type = .percentage →
          calculate_cart_wise_discount cart d
            = round2 (calculate_cart_total cart * d.discount / 100))
        ∧ (d.discount_type = .fixed →
          calculate_cart_wise_discount cart d
            = min (round2 d.discount) (calculate_cart_total cart)
          ∧ calculate_cart_wise_discount cart d ≤ calculate_cart_total cart)) := by
  refine ⟨fun h => ?_, fun h => ⟨fun hp => ?_, fun hf => ⟨?_, ?_⟩⟩⟩
  · simp [calculate_cart_wise_discount, h]
  · simp [calculate_cart_wise_discount, not_lt.mpr h, hp]
  · simp [calculate_cart_wise_discount, not_lt.mpr h, hf]
  · simp only [calculate_cart_wise_discount, not_lt.mpr h, if_false, hf]
    exact min_le_right _ _

theorem cart_wise_discount_spec_witness :
    calculate_cart_wise_discount ⟨[⟨1, 2, 50⟩, ⟨2, 1, 100⟩]⟩
        ⟨100, 10, .percentage⟩
      = round2 (calculate_cart_total ⟨[⟨1, 2, 50⟩, ⟨2, 1, 100⟩]⟩ * 10 / 100) :=
  ((cart_wise_discount_spec ⟨[⟨1, 2, 50⟩, ⟨2, 1, 100⟩]⟩
      ⟨100, 10, .percentage⟩).2 (by norm_num [calculate_cart_total])).1 rfl

/-- C4: for every cart and product-wise details, the discount is 0 when the
target product is absent; otherwise with `product_subtotal` the subtotal of
the (first) matching line, percentage type yields
`round2(product_subtotal * discount / 100)` and fixed type yields
`min(round2(discount), product_subtotal)`, which never exceeds that
subtotal. -/
theorem product_wise_discount_spec (cart : Cart) (d : ProductWiseDetails) :
    (cart.items.find? (fun it => it.product_id == d.product_id) = none →
      calculate_product_wise_discount cart d = 0)
    ∧ ∀ target,
        cart.items.find? (fun it => it.product_id == d.product_id)
          = some target →
        (d.discount_type = .percentage →
          calculate_product_wise_discount cart d
            = round2 ((target.quantity : ℚ) * target.price * d.discount / 100))
        ∧ (d.discount_type = .fixed →
          calculate_product_wise_discount cart d
            = min (round2 d.discount) ((target.quantity : ℚ) * target.price)
          ∧ calculate_product_wise_discount cart d
              ≤ (target.quantity : ℚ) * target.price) := by
  refine ⟨fun h => ?_, fun target ht => ⟨fun hp => ?_, fun hf => ⟨?_, ?_⟩⟩⟩
  · simp [calculate_product_wise_discount, h]
  · simp [calculate_product_wise_discount, ht, hp]
  · simp [calculate_product_wise_discount, ht, hf]
  · simp only [calculate_product_wise_discount, ht, hf]
    exact min_le_right _ _

theorem product_wise_discount_spec_witness :
    calculate_product_wise_discount ⟨[⟨1, 2, 50⟩, ⟨2, 1, 100⟩]⟩
        ⟨2, 30, .fixed⟩
      = min (round2 30) ((1 : ℚ) * 100)
    ∧ calculate_product_wise_discount ⟨[⟨1, 2, 50⟩, ⟨2, 1, 100⟩]⟩
        ⟨2, 30, .fixed⟩ ≤ (1 : ℚ) * 100 :=
  ((product_wise_discount_spec ⟨[⟨1, 2, 50⟩, ⟨2, 1, 100⟩]⟩
      ⟨2, 30, .fixed⟩).2 ⟨2, 1, 100⟩ (by simp [List.find?])).2 rfl

/-- C10: for every cart and every coupon whose type is outside the three
supported variants, `is_coupon_applicable` returns `false` and
`calculate_discount` returns 0 (both are total functions, so no error is
raised). -/
theorem unknown_type_inapplicable_zero (cart : Cart) (s : String) :
    is_coupon_applicable cart (.other s) = false
    ∧ calculate_discount cart (.other s) = 0 := by
  exact ⟨rfl, by simp [calculate_discount, is_coupon_applicable]⟩

/-- C8: the engine operations are deterministic and side-effect free.  The
state-passing forms return the cart unchanged (the source only reads the
cart), and re-running an operation on the cart an earlier run returned
yields the identical result: there is no hidden state. -/
theorem engine_deterministic_and_pure (cart : Cart) (k : CouponKind) :
    (is_coupon_applicable_run cart k).2 = cart
    ∧ (calculate_discount_run cart k).2 = cart
    ∧ is_coupon_applicable_run ((is_coupon_applicable_run cart k).2) k
        = is_coupon_applicable_run cart k
    ∧ calculate_discount_run ((calculate_discount_run cart k).2) k
        = calculate_discount_run cart k :=
  ⟨rfl, rfl, rfl, rfl⟩

theorem ensure_redeemable_of_inactive {c : Coupon} {now : ℤ}
    (h : c.is_active = false) :
    ensure_redeemable c now = .error "Coupon is inactive" := by
  simp [ensure_redeemable, h]

theorem ensure_redeemable_of_expired {c : Coupon} {now e : ℤ}
    (ha : c.is_active = true) (he : c.expires_at = some e) (h : e ≤ now) :
    ensure_redeemable c now = .error "Coupon is expired" := by
  simp [ensure_redeemable, ha, he, h]

theorem ensure_redeemable_of_limit {c : Coupon} {now : ℤ} {m : ℕ}
    (ha : c.is_active = true)
    (hne : ∀ e, c.expires_at = some e → now < e)
    (hm : c.max_redemptions = some m) (h : m ≤ c.times_redeemed) :
    ensure_redeemable c now = .error "Coupon redemption limit reached" := by
  cases hE : c.expires_at with
  | none => simp [ensure_redeemable, ha, hE, hm, h]
  | some e =>
      have hlt := hne e hE
      simp [ensure_redeemable, ha, hE, hm, h, not_le.mpr hlt]

theorem ensure_redeemable_ok_iff (c : Coupon) (now : ℤ) :
    ensure_redeemable c now = .ok () ↔ redeemable c now = true := by
  unfold ensure_redeemable redeemable
  cases c.is_active <;> cases c.expires_at <;> cases c.max_redemptions <;>
    · split_ifs <;> simp_all

theorem ensure_redeemable_error_of_not {c : Coupon} {now : ℤ}
    (h : ¬ redeemable c now = true) :
    ∃ s, ensure_redeemable c now = .error s := by
  cases hE : ensure_redeemable c now with
  | error s => exact ⟨s, rfl⟩
  | ok u =>
      cases u
      exact absurd ((ensure_redeemable_ok_iff c now).mp hE) h

theorem apply_coupon_error_of_ensure {c : Coupon} {cart : Cart} {now : ℤ}
    {s : String} (h : ensure_redeemable c now = .error s) :
    apply_coupon c cart now = .error s := by
  simp [apply_coupon, h]

theorem apply_coupon_ok_of_redeemable {c : Coupon} {cart : Cart} {now : ℤ}
    (hk : c.kind.supported = true) (h : redeemable c now = true) :
    ∃ u, apply_coupon c cart now = .ok (u, increment_redemption c) := by
  have hE := (ensure_redeemable_ok_iff c now).mpr h
  cases hkind : c.kind with
  | cartWise d =>
      refine ⟨mkUpdatedCart
        (allocateCartWise (calculate_cart_wise_discount cart d)
          (calculate_cart_total cart) cart.items 0)
        (calculate_cart_total cart) (calculate_cart_wise_discount cart d), ?_⟩
      simp [apply_coupon, hE, hkind]
  | productWise d =>
      refine ⟨mkUpdatedCart
        (productWiseRewrite cart (calculate_product_wise_discount cart d)
          (some d.product_id))
        (calculate_cart_total cart)
        (calculate_product_wise_discount cart d), ?_⟩
      simp [apply_coupon, hE, hkind]
  | bxgy d =>
      refine ⟨mkUpdatedCart (bxgyRewrite cart (calculate_bxgy_discount cart d).2)
        (calculate_cart_total cart) (calculate_bxgy_discount cart d).1, ?_⟩
      simp [apply_coupon, hE, hkind]
  | other s => simp [CouponKind.supported, hkind] at hk

/-- C6: for an existing (hence validated, supported-type) coupon, the apply
operation succeeds if and only if the coupon passes the redeemability gate;
each violation is rejected with the error naming its specific cause
(inactive, expired, or redemption limit reached), and no updated cart is
produced on rejection. -/
theorem apply_rejects_iff_not_redeemable (c : Coupon) (cart : Cart)
    (now : ℤ) (hk : c.kind.supported = true) :
    ((∃ r, apply_coupon c cart now = .ok r) ↔ redeemable c now = true)
    ∧ (c.is_active = false →
        apply_coupon c cart now = .error "Coupon is inactive")
    ∧ (∀ e, c.is_active = true → c.expires_at = some e → e ≤ now →
        apply_coupon c cart now = .error "Coupon is expired")
    ∧ (∀ m, c.is_active = true →
        (∀ e, c.expires_at = some e → now < e) →
        c.max_redemptions = some m → m ≤ c.times_redeemed →
        apply_coupon c cart now = .error "Coupon redemption limit reached") := by
  refine ⟨⟨fun hok => ?_, fun hr => ?_⟩, fun h => ?_,
    fun e ha he h => ?_, fun m ha hne hm h => ?_⟩
  · by_contra hred
    obtain ⟨s, hs⟩ := ensure_redeemable_error_of_not hred
    obtain ⟨r, hr⟩ := hok
    rw [apply_coupon_error_of_ensure hs] at hr
    cases hr
  · obtain ⟨u, hu⟩ := apply_coupon_ok_of_redeemable hk hr
    exact ⟨_, hu⟩
  · exact apply_coupon_error_of_ensure (ensure_redeemable_of_inactive h)
  · exact apply_coupon_error_of_ensure (ensure_redeemable_of_expired ha he h)
  · exact apply_coupon_error_of_ensure
      (ensure_redeemable_of_limit ha hne hm h)

theorem apply_rejects_iff_not_redeemable_witness :
    apply_coupon ⟨.cartWise ⟨100, 10, .percentage⟩, false, none, none, 0⟩
        ⟨[]⟩ 0
      = .error "Coupon is inactive" :=
  (apply_rejects_iff_not_redeemable
    ⟨.cartWise ⟨100, 10, .percentage⟩, false, none, none, 0⟩ ⟨[]⟩ 0 rfl).2.1 rfl

theorem apply_coupon_ok_inv {c : Coupon} {cart : Cart} {now : ℤ}
    {u : UpdatedCart} {c' : Coupon}
    (h : apply_coupon c cart now = .ok (u, c')) :
    c' = increment_redemption c
    ∧ u = mkUpdatedCart
        (match c.kind with
         | .cartWise d => allocateCartWise (calculate_cart_wise_discount cart d)
             (calculate_cart_total cart) cart.items 0
         | .productWise d => productWiseRewrite cart
             (calculate_product_wise_discount cart d) (some d.product_id)
         | .bxgy d => bxgyRewrite cart (calculate_bxgy_discount cart d).2
         | .other _ => [])
        (calculate_cart_total cart) (aggregateDiscount cart c.kind) := by
  unfold apply_coupon at h
  cases hE : ensure_redeemable c now with
  | error e => rw [hE] at h; cases h
  | ok u0 =>
      rw [hE] at h
      cases hkind : c.kind <;> rw [hkind] at h <;>
        simp only [Except.ok.injEq, Prod.mk.injEq] at h
      case cartWise d =>
        exact ⟨h.2.symm, by simp [aggregateDiscount, ← h.1]⟩
      case productWise d =>
        exact ⟨h.2.symm, by simp [aggregateDiscount, ← h.1]⟩
      case bxgy d =>
        exact ⟨h.2.symm, by simp [aggregateDiscount, ← h.1]⟩
      case other s => cases h

/-- C9: a successful apply returns the coupon with `times_redeemed`
incremented by exactly 1 and every other field (type payload, active flag,
expiry, redemption cap) unchanged. -/
theorem apply_success_frame (c : Coupon) (cart : Cart) (now : ℤ)
    (u : UpdatedCart) (c' : Coupon)
    (h : apply_coupon c cart now = .ok (u, c')) :
    c'.times_redeemed = c.times_redeemed + 1
    ∧ c'.kind = c.kind ∧ c'.is_active = c.is_active
    ∧ c'.expires_at = c.expires_at
    ∧ c'.max_redemptions = c.max_redemptions := by
  obtain ⟨hc', -⟩ := apply_coupon_ok_inv h
  subst hc'
  simp [increment_redemption]

/-- Concrete run of the apply route: the spec's end-to-end example 1. -/
theorem exApply :
    apply_coupon exCoupon exCart 0
      = .ok (exUpdated, increment_redemption exCoupon) := by
  unfold apply_coupon exCoupon exCart exUpdated
  norm_num [ensure_redeemable, calculate_cart_total,
    calculate_cart_wise_discount, allocateCartWise, mkUpdatedCart,
    round2, roundHalfUp, increment_redemption]

theorem apply_success_frame_witness :
    (increment_redemption exCoupon).times_redeemed
        = exCoupon.times_redeemed + 1
    ∧ (increment_redemption exCoupon).kind = exCoupon.kind
    ∧ (increment_redemption exCoupon).is_active = exCoupon.is_active
    ∧ (increment_redemption exCoupon).expires_at = exCoupon.expires_at
    ∧ (increment_redemption exCoupon).max_redemptions
        = exCoupon.max_redemptions :=
  apply_success_frame exCoupon exCart 0 exUpdated
    (increment_redemption exCoupon) exApply

/-- C7: whenever the apply operation succeeds, the updated cart's totals
satisfy `total_price = round2(cart total)`,
`total_discount = round2(aggregate discount)` and
`final_price = round2(total_price - total_discount)`. -/
theorem apply_totals_spec (c : Coupon) (cart : Cart) (now : ℤ)
    (u : UpdatedCart) (c' : Coupon)
    (h : apply_coupon c cart now = .ok (u, c')) :
    u.total_price = round2 (calculate_cart_total cart)
    ∧ u.total_discount = round2 (aggregateDiscount cart c.kind)
    ∧ u.final_price = round2 (u.total_price - u.total_discount) := by
  obtain ⟨-, hu⟩ := apply_coupon_ok_inv h
  subst hu
  exact ⟨rfl, rfl, rfl⟩

theorem apply_totals_spec_witness :
    exUpdated.total_price = round2 (calculate_cart_total exCart)
    ∧ exUpdated.total_discount
        = round2 (aggregateDiscount exCart exCoupon.kind)
    ∧ exUpdated.final_price
        = round2 (exUpdated.total_price - exUpdated.total_discount) :=
  apply_totals_spec exCoupon exCart 0 exUpdated
    (increment_redemption exCoupon) exApply

theorem dictInsert_of_fresh {m : List (ℕ × ℕ)} {k : ℕ} (v : ℕ)
    (h : ∀ e ∈ m, e.1 ≠ k) : dictInsert m k v = m ++ [(k, v)] := by
  unfold dictInsert
  have hany : m.any (fun e => e.1 == k) = false := by
    rw [List.any_eq_false]
    intro e he
    simpa using h e he
  rw [hany]
  rfl

theorem foldl_bxgyStep_snd (cart : Cart) (times : ℕ)
    (l : List BxGyProduct) (acc : ℚ × List (ℕ × ℕ))
    (hnd : (l.map (fun g => g.product_id)).Nodup)
    (hdisj : ∀ e ∈ acc.2, ∀ g ∈ l, e.1 ≠ g.product_id) :
    (l.foldl (bxgyStep cart times) acc).2
      = acc.2 ++ l.filterMap (fun g =>
          if 0 < g.quantity * times then
            some (g.product_id, g.quantity * times)
          else none) := by
  induction l generalizing acc with
  | nil => simp
  | cons g l ih =>
      simp only [List.foldl_cons, List.filterMap_cons]
      by_cases hg : 0 < g.quantity * times
      · have hfresh : ∀ e ∈ acc.2, e.1 ≠ g.product_id :=
          fun e he => hdisj e he g (by simp)
        have hstep : bxgyStep cart times acc g
            = (acc.1 + ((g.quantity * times : ℕ) : ℚ) *
                (match cartLookup cart g.product_id with
                 | some it => it.price
                 | none => 0),
               acc.2 ++ [(g.product_id, g.quantity * times)]) := by
          unfold bxgyStep
          rw [if_pos hg, dictInsert_of_fresh _ hfresh]
        have hnd' : (l.map (fun g => g.product_id)).Nodup :=
          (List.nodup_cons.mp (by simpa using hnd)).2
        have hpid : g.product_id ∉ l.map (fun g => g.product_id) :=
          (List.nodup_cons.mp (by simpa using hnd)).1
        have hdisj' : ∀ e ∈ (bxgyStep cart times acc g).2,
            ∀ g2 ∈ l, e.1 ≠ g2.product_id := by
          rw [hstep]
          intro e he g2 hg2
          rcases List.mem_append.mp he with h1 | h2
          · exact hdisj e h1 g2 (by simp [hg2])
          · have he2 : e = (g.product_id, g.quantity * times) := by
              simpa using h2
            subst he2
            simp only [ne_eq]
            intro hcon
            exact hpid (List.mem_map.mpr ⟨g2, hg2, hcon.symm⟩)
        rw [ih _ hnd' hdisj', hstep]
        simp [hg]
      · have hstep : bxgyStep cart times acc g = acc := by
          unfold bxgyStep
          rw [if_neg hg]
        have hnd' : (l.map (fun g => g.product_id)).Nodup :=
          (List.nodup_cons.mp (by simpa using hnd)).2
        have hdisj' : ∀ e ∈ (bxgyStep cart times acc g).2,
            ∀ g2 ∈ l, e.1 ≠ g2.product_id := by
          rw [hstep]
          exact fun e he g2 hg2 => hdisj e he g2 (by simp [hg2])
        rw [ih _ hnd' hdisj', hstep]
        simp [hg]

/-- C3: bxgy discount.  With a zero required buy quantity the result is
discount 0 and an empty free-item map; otherwise, with
`times_applicable = min(total_buy_present / required, repetition_limit)`,
the free-item map (for get-lists without duplicate product ids) holds
exactly the get products whose granted quantity
`per-application quantity × times_applicable` is positive, each mapped to
that granted quantity. -/
theorem bxgy_discount_spec (cart : Cart) (d : BxGyDetails) :
    (requiredBuyQuantity d = 0 → calculate_bxgy_discount cart d = (0, []))
    ∧ (requiredBuyQuantity d ≠ 0 →
        (d.get_products.map (fun g => g.product_id)).Nodup →
        (calculate_bxgy_discount cart d).2
          = d.get_products.filterMap (fun g =>
              if 0 < g.quantity *
                  min (buyQuantityPresent cart d.buy_products
                      / requiredBuyQuantity d)
                    d.repetition_limit
              then some (g.product_id,
                g.quantity *
                  min (buyQuantityPresent cart d.buy_products
                      / requiredBuyQuantity d)
                    d.repetition_limit)
              else none)) := by
  constructor
  · intro h
    simp [calculate_bxgy_discount, h]
  · intro h hnd
    simp only [calculate_bxgy_discount, if_neg h]
    exact foldl_bxgyStep_snd cart _ d.get_products (0, []) hnd (by simp)

theorem bxgy_discount_spec_witness :
    (calculate_bxgy_discount ⟨[⟨1, 6, 10⟩, ⟨2, 6, 5⟩]⟩
        ⟨[⟨1, 3⟩, ⟨2, 3⟩], [⟨3, 1⟩], 2⟩).2 = [(3, 2)] := by
  have h := (bxgy_discount_spec ⟨[⟨1, 6, 10⟩, ⟨2, 6, 5⟩]⟩
      ⟨[⟨1, 3⟩, ⟨2, 3⟩], [⟨3, 1⟩], 2⟩).2 (by decide) (by decide)
  rw [h]
  decide

theorem IsCent.sub {a b : ℚ} (ha : IsCent a) (hb : IsCent b) :
    IsCent (a - b) := by
  obtain ⟨n, rfl⟩ := ha
  obtain ⟨m, rfl⟩ := hb
  exact ⟨n - m, by push_cast; ring⟩

theorem allocateCartWise_map_disc (td subtotal : ℚ) (hpos : 0 < subtotal)
    (items : List CartItem) (running : ℚ) (hne : items ≠ []) :
    (allocateCartWise td subtotal items running).map
        (fun it => it.total_discount)
      = items.dropLast.map (fun it =>
          round2 (td * (((it.quantity : ℚ) * it.price) / subtotal)))
        ++ [round2 (td - (running
            + (items.dropLast.map (fun it =>
                round2 (td * (((it.quantity : ℚ) * it.price) / subtotal)))).sum))] := by
  induction items generalizing running with
  | nil => exact absurd rfl hne
  | cons x rest ih =>
      cases rest with
      | nil => simp [allocateCartWise]
      | cons y rest2 =>
          have hne2 : y :: rest2 ≠ [] := by simp
          simp only [allocateCartWise, if_pos hpos, List.map_cons]
          rw [ih _ hne2]
          simp [List.dropLast, add_assoc]

theorem allocateCartWise_sum (td subtotal : ℚ) (hpos : 0 < subtotal)
    (items : List CartItem) (running : ℚ) (hne : items ≠ [])
    (htd : IsCent td) (hr : IsCent running) :
    running + ((allocateCartWise td subtotal items running).map
        (fun it => it.total_discount)).sum = td := by
  rw [allocateCartWise_map_disc td subtotal hpos items running hne]
  rw [List.sum_append, List.sum_cons, List.sum_nil, add_zero]
  have hSc : IsCent (items.dropLast.map (fun it =>
      round2 (td * (((it.quantity : ℚ) * it.price) / subtotal)))).sum := by
    refine isCent_sum _ ?_
    intro x hx
    obtain ⟨a, -, rfl⟩ := List.mem_map.mp hx
    exact isCent_round2 _
  rw [round2_eq_self_of_cent (htd.sub (hr.add hSc))]
  ring

/-- C5 (amended): for a non-empty cart and an applied cart-wise coupon,
every item except the last receives
`round2(aggregate_discount * item_subtotal / cart_total)`, and the last
item receives `round2(aggregate_discount - running_sum_of_prior)` — with a
final rounding, unlike the claim's exact remainder.  Whenever the
aggregate discount is a whole number of cents (always the case for
percentage type), the rounding is exact and the allocations sum exactly to
the aggregate discount. -/
theorem cart_wise_allocation_spec (c : Coupon) (cart : Cart) (now : ℤ)
    (d : CartWiseDetails) (u : UpdatedCart) (c' : Coupon)
    (hk : c.kind = .cartWise d)
    (h : apply_coupon c cart now = .ok (u, c'))
    (hne : cart.items ≠ []) (hpos : 0 < calculate_cart_total cart) :
    u.items.map (fun it => it.total_discount)
      = cart.items.dropLast.map (fun it =>
          round2 (calculate_cart_wise_discount cart d *
            (((it.quantity : ℚ) * it.price) / calculate_cart_total cart)))
        ++ [round2 (calculate_cart_wise_discount cart d
            - (cart.items.dropLast.map (fun it =>
                round2 (calculate_cart_wise_discount cart d *
                  (((it.quantity : ℚ) * it.price)
                    / calculate_cart_total cart)))).sum)]
    ∧ (IsCent (calculate_cart_wise_discount cart d) →
        (u.items.map (fun it => it.total_discount)).sum
          = calculate_cart_wise_discount cart d) := by
  obtain ⟨-, hu⟩ := apply_coupon_ok_inv h
  subst hu
  simp only [mkUpdatedCart, hk]
  constructor
  · rw [allocateCartWise_map_disc (calculate_cart_wise_discount cart d)
      (calculate_cart_total cart) hpos cart.items 0 hne, zero_add]
  · intro hcent
    have hsum := allocateCartWise_sum (calculate_cart_wise_discount cart d)
      (calculate_cart_total cart) hpos cart.items 0 hne hcent isCent_zero
    rw [zero_add] at hsum
    exact hsum

theorem cart_wise_allocation_spec_witness :
    (exUpdated.items.map (fun it => it.total_discount)).sum
      = calculate_cart_wise_discount exCart ⟨100, 10, .percentage⟩ :=
  (cart_wise_allocation_spec exCoupon exCart 0 ⟨100, 10, .percentage⟩
    exUpdated (increment_redemption exCoupon) rfl exApply
    (by simp [exCart]) (by norm_num [exCart, calculate_cart_total])).2
    ⟨2000, by norm_num [exCart, calculate_cart_wise_discount,
      calculate_cart_total, round2, roundHalfUp]⟩

/-- Cart for the C5 counterexample: three unit-quantity items priced at
0.005 each (cart total 0.015). -/
def cexCart : Cart := ⟨[⟨1, 1, 1/200⟩, ⟨2, 1, 1/200⟩, ⟨3, 1, 1/200⟩]⟩

/-- Coupon for the C5 counterexample: cart-wise fixed discount 0.02 over
threshold 0.01, so the aggregate discount is capped at the cart total
0.015, which is not a whole number of cents. -/
def cexCoupon : Coupon := ⟨.cartWise ⟨1/100, 1/50, .fixed⟩, true, none, none, 0⟩

/-- C5 (counterexample): applying `cexCoupon` to `cexCart` allocates
[0.01, 0.01, -0.01]; the last item receives -0.01, not the claim's exact
remainder `aggregate_discount - prior_allocations = 0.015 - 0.02 = -0.005`,
and the allocations sum to 0.01, not to the aggregate discount 0.015. -/
theorem cart_wise_allocation_cex :
    (apply_coupon cexCoupon cexCart 0).toOption.map
        (fun p => p.1.items.map (fun it => it.total_discount))
      = some [1/100, 1/100, -1/100]
    ∧ calculate_cart_wise_discount cexCart ⟨1/100, 1/50, .fixed⟩
        - (1/100 + 1/100) = -1/200
    ∧ (-1/100 : ℚ) ≠ -1/200
    ∧ (1/100 + 1/100 + -1/100 : ℚ)
        ≠ calculate_cart_wise_discount cexCart ⟨1/100, 1/50, .fixed⟩ := by
  refine ⟨?_, ?_, by norm_num, ?_⟩
  · unfold apply_coupon cexCoupon cexCart
    norm_num [ensure_redeemable, calculate_cart_total,
      calculate_cart_wise_discount, allocateCartWise, mkUpdatedCart,
      round2, roundHalfUp]
    exact ⟨_, ⟨_, rfl⟩, rfl⟩
  · unfold cexCart
    norm_num [calculate_cart_wise_discount, calculate_cart_total,
      round2, roundHalfUp]
  · unfold cexCart
    norm_num [calculate_cart_wise_discount, calculate_cart_total,
      round2, roundHalfUp]

/-- Cart for the C1 failing input: a single unit-quantity item priced at
0.01. -/
def bugCart : Cart := ⟨[⟨1, 1, 1/100⟩]⟩

/-- Coupon for the C1 failing input: product-wise 150% discount on
product 1 (the validator only requires `discount > 0`, so this coupon is
accepted by the system). -/
def bugCoupon : Coupon := ⟨.productWise ⟨1, 150, .percentage⟩, true, none, none, 0⟩

/-- C1: evaluation of the apply route at the failing input.  The aggregate
discount is round2(0.01 × 150 / 100) = 0.02, but the per-item allocation is
capped at the product subtotal 0.01, so the allocations sum to 0.01 while
`UpdatedCart.total_discount` is 0.02: the reconciliation law
`Σ allocated_discount = total_discount` fails on the code. -/
theorem reconciliation_fails_on_code :
    (apply_coupon bugCoupon bugCart 0).toOption.map
        (fun p => ((p.1.items.map (fun it => it.total_discount)).sum,
                   p.1.total_discount))
      = some (1/100, 1/50)
    ∧ (1/100 : ℚ) ≠ 1/50 := by
  refine ⟨?_, by norm_num⟩
  unfold apply_coupon bugCoupon bugCart
  norm_num [ensure_redeemable, calculate_cart_total,
    calculate_product_wise_discount, productWiseRewrite, mkUpdatedCart,
    round2, roundHalfUp, List.find?]
  exact ⟨_, ⟨_, rfl⟩, by norm_num, rfl⟩

end CouponApp
